import Mathlib

/-!
Shallow embedding of the Growatt Home Assistant integration's button, number
and time platforms (custom_components/growatt_server/button.py, number.py,
time.py).  Python runtime behaviour (exceptions, str/int coercions, dict
updates) is made explicit.  Numeric string parsing is modelled on the plain
ASCII decimal subset the integration traffics in (underscore digit grouping,
unicode digits and float exponents are outside the model), and floats are
modelled as exact rationals.
-/

/-- Python exception kinds that can arise in the embedded code paths. -/
inductive PyExc where
  | valueError
  | indexError
  | attributeError
  deriving DecidableEq

/-- Decidable equality for Except results, used to evaluate the embedded
fallible operations on concrete inputs. -/
instance {ε α : Type} [DecidableEq ε] [DecidableEq α] : DecidableEq (Except ε α) := fun x y =>
  match x, y with
  | .ok a, .ok b => if h : a = b then isTrue (by rw [h]) else isFalse (by simp [h])
  | .error a, .error b => if h : a = b then isTrue (by rw [h]) else isFalse (by simp [h])
  | .ok _, .error _ => isFalse (by simp)
  | .error _, .ok _ => isFalse (by simp)

/-- A scalar stored in the coordinator's field-value mapping: the integration
stores ints (number entities), and strings (time fields, switch states). -/
inductive PyValue where
  | pint (n : Int)
  | pstr (s : String)
  deriving DecidableEq

/-- Value of a list of ASCII decimal digits. -/
def digitsVal (cs : List Char) : Nat :=
  cs.foldl (fun a c => a * 10 + (c.toNat - 48)) 0

/-- Strip leading and trailing whitespace, as Python's int()/float() do. -/
def trimChars (cs : List Char) : List Char :=
  ((cs.dropWhile Char.isWhitespace).reverse.dropWhile Char.isWhitespace).reverse

/-- Python int(str): optional sign then one or more ASCII digits; anything
else raises ValueError. -/
def pyIntChars (cs : List Char) : Except PyExc Int :=
  match trimChars cs with
  | '+' :: rest =>
      if !rest.isEmpty && rest.all Char.isDigit then .ok (digitsVal rest)
      else .error .valueError
  | '-' :: rest =>
      if !rest.isEmpty && rest.all Char.isDigit then .ok (-(digitsVal rest : Int))
      else .error .valueError
  | rest =>
      if !rest.isEmpty && rest.all Char.isDigit then .ok (digitsVal rest)
      else .error .valueError

/-- Python int(str) on a Lean string. -/
def pyInt (s : String) : Except PyExc Int :=
  pyIntChars s.data

/-- Python str.split(sep) for a one-character separator: auxiliary with the
accumulator of the current chunk (reversed). -/
def splitOnCharAux (sep : Char) : List Char → List Char → List (List Char)
  | [], acc => [acc.reverse]
  | c :: cs, acc =>
      if c = sep then acc.reverse :: splitOnCharAux sep cs []
      else splitOnCharAux sep cs (c :: acc)

/-- Python str.split(sep) for a one-character separator. -/
def splitOnChar (sep : Char) (cs : List Char) : List (List Char) :=
  splitOnCharAux sep cs []

/-- Integer part of an unsigned decimal literal (digits with an optional
fractional part, at least one digit overall), which is the truncation toward
zero of the float it denotes; ValueError otherwise. -/
def floatIntPart (cs : List Char) : Except PyExc Nat :=
  match splitOnChar '.' cs with
  | [ip] =>
      if !ip.isEmpty && ip.all Char.isDigit then .ok (digitsVal ip)
      else .error .valueError
  | [ip, fp] =>
      if (ip.all Char.isDigit && fp.all Char.isDigit) && !(ip.isEmpty && fp.isEmpty) then
        .ok (digitsVal ip)
      else .error .valueError
  | _ => .error .valueError

/-- Python int(float(s)) on the finite decimal subset: truncation toward
zero of the signed decimal literal. -/
def int_of_float_str (s : String) : Except PyExc Int :=
  match trimChars s.data with
  | '+' :: rest => (floatIntPart rest).map (fun n => (n : Int))
  | '-' :: rest => (floatIntPart rest).map (fun n => -(n : Int))
  | rest => (floatIntPart rest).map (fun n => (n : Int))

/-- datetime.time restricted to the fields the integration reads. -/
structure PyTimeHM where
  hour : Nat
  minute : Nat
  deriving DecidableEq

/-- A full datetime.time value, as received by async_set_value: the
f-string formatting with 02d discards second and microsecond. -/
structure PyTime where
  hour : Nat
  minute : Nat
  second : Nat
  microsecond : Nat
  deriving DecidableEq

/-- The datetime.time constructor: ValueError outside 0..23 hours or
0..59 minutes. -/
def pyTimeCtor (h m : Int) : Except PyExc PyTimeHM :=
  if 0 ≤ h ∧ h < 24 ∧ 0 ≤ m ∧ m < 60 then .ok ⟨h.toNat, m.toNat⟩
  else .error .valueError

/-- Python format specification 02d for a nonnegative value: zero-pad to
width two. -/
def format02d (n : Nat) : String :=
  if n < 10 then "0" ++ Nat.repr n else Nat.repr n

/-- datetime.time.fromisoformat, modelled on the two-digit HH:MM shape the
integration itself writes into the mapping; other shapes raise ValueError. -/
def time_fromisoformat (s : String) : Except PyExc PyTimeHM :=
  match s.data with
  | [h1, h2, c, m1, m2] =>
      if c = ':' ∧ h1.isDigit ∧ h2.isDigit ∧ m1.isDigit ∧ m2.isDigit then
        pyTimeCtor (digitsVal [h1, h2] : Nat) (digitsVal [m1, m2] : Nat)
      else .error .valueError
  | _ => .error .valueError

/-- Python int(float) truncation toward zero, with the float modelled as an
exact rational. -/
def ratTrunc (v : Rat) : Int :=
  Int.tdiv v.num (v.den : Int)

/-- Python dict assignment d[k] = v on the coordinator's field-value
mapping. -/
def dictSet (data : String → Option PyValue) (k : String) (v : PyValue) :
    String → Option PyValue :=
  fun q => if q = k then some v else data q

/-- Python int(v) applied to a stored scalar. -/
def pyValueInt : PyValue → Except PyExc Int
  | .pint n => .ok n
  | .pstr s => pyIntChars s.data

/-- The vendor SDK's device-type enumeration (growattServer.DeviceType). -/
inductive DeviceType where
  | MIN_TLX
  | SPH_MIX
  deriving DecidableEq

/-- OpenApiV1.ChargeDischargeParams: the flat parameter record for
write_parameter. -/
structure ChargeDischargeParams where
  charge_power : Int
  charge_stop_soc : Int
  discharge_power : Int
  discharge_stop_soc : Int
  ac_charge_enabled : Bool
  deriving DecidableEq

/-- OpenApiV1.MixAcChargeTimeParams: the merged charge time-window record. -/
structure MixAcChargeTimeParams where
  charge_power : Int
  charge_stop_soc : Int
  mains_enabled : Bool
  start_hour : Nat
  start_minute : Nat
  end_hour : Nat
  end_minute : Nat
  enabled : Bool
  segment_id : Nat
  deriving DecidableEq

/-- OpenApiV1.MixAcDischargeTimeParams: the merged discharge time-window
record (no mains flag). -/
structure MixAcDischargeTimeParams where
  discharge_power : Int
  discharge_stop_soc : Int
  start_hour : Nat
  start_minute : Nat
  end_hour : Nat
  end_minute : Nat
  enabled : Bool
  segment_id : Nat
  deriving DecidableEq

/-- The record passed to write_time_segment: one of the two merged
time-window parameter types. -/
inductive TimeSegmentParams where
  | mixCharge (p : MixAcChargeTimeParams)
  | mixDischarge (p : MixAcDischargeTimeParams)
  deriving DecidableEq

/-- One blocking vendor SDK write call, with all its arguments. -/
inductive ApiCall where
  | writeParameter (device_id : String) (device_type : DeviceType)
      (parameter_id : String) (params : ChargeDischargeParams)
  | writeTimeSegment (device_id : String) (device_type : DeviceType)
      (segment_name : String) (params : TimeSegmentParams)
  deriving DecidableEq

/-! ### time.py -/

/-- The three field kinds keyed by the template dictionaries in time.py. -/
inductive FieldType where
  | start_time
  | stop_time
  | enabled
  deriving DecidableEq

/-- MIN/TLX devices use numbered time segment fields (time.py). -/
def MIN_TLX_FIELD_TEMPLATES : FieldType → String
  | .start_time => "timeSegmentStart{segment_id}"
  | .stop_time => "timeSegmentStop{segment_id}"
  | .enabled => "timeSegmentEnabled{segment_id}"

/-- MIX/SPH devices use distinct field names for charge (time.py). -/
def SPH_MIX_CHARGE_FIELD_TEMPLATES : FieldType → String
  | .start_time => "forcedChargeTimeStart{segment_id}"
  | .stop_time => "forcedChargeTimeStop{segment_id}"
  | .enabled => "forcedChargeStopSwitch{segment_id}"

/-- MIX/SPH devices use distinct field names for discharge (time.py). -/
def SPH_MIX_DISCHARGE_FIELD_TEMPLATES : FieldType → String
  | .start_time => "forcedDischargeTimeStart{segment_id}"
  | .stop_time => "forcedDischargeTimeStop{segment_id}"
  | .enabled => "forcedDischargeStopSwitch{segment_id}"

/-- str.format substitution of the sole segment_id placeholder occurring in
the templates. -/
def formatSegmentChars (sid : List Char) : List Char → List Char
  | '\x7b' :: 's' :: 'e' :: 'g' :: 'm' :: 'e' :: 'n' :: 't' :: '_' :: 'i' :: 'd' :: '\x7d' :: rest =>
      sid ++ formatSegmentChars sid rest
  | c :: rest => c :: formatSegmentChars sid rest
  | [] => []

/-- template.format(segment_id=segment_id). -/
def formatSegment (template : String) (segment_id : Nat) : String :=
  String.mk (formatSegmentChars (Nat.repr segment_id).data template.data)

/-- _get_field_name shared by GrowattChargeStartTimeEntity and
GrowattChargeEndTimeEntity: tlx devices use the numbered segment templates,
any other device the forced-charge templates. -/
def charge_get_field_name (device_type : String) (segment_id : Nat) (ft : FieldType) : String :=
  if device_type = "tlx" then formatSegment (MIN_TLX_FIELD_TEMPLATES ft) segment_id
  else formatSegment (SPH_MIX_CHARGE_FIELD_TEMPLATES ft) segment_id

/-- _get_field_name shared by GrowattDischargeStartTimeEntity and
GrowattDischargeEndTimeEntity: tlx devices use the numbered segment
templates, any other device the forced-discharge templates. -/
def discharge_get_field_name (device_type : String) (segment_id : Nat) (ft : FieldType) : String :=
  if device_type = "tlx" then formatSegment (MIN_TLX_FIELD_TEMPLATES ft) segment_id
  else formatSegment (SPH_MIX_DISCHARGE_FIELD_TEMPLATES ft) segment_id

/-- Python list indexing, raising IndexError when out of range. -/
def listIndex (l : List (List Char)) (i : Nat) : Except PyExc (List Char) :=
  match l.get? i with
  | some x => .ok x
  | none => .error .indexError

/-- The try-block of a time entity's native_value: split the stored string
on the colon, int() the first two parts, build a datetime.time (Python
evaluation order: parts[0], int, parts[1], int, constructor). -/
def time_parse_try (s : String) : Except PyExc PyTimeHM :=
  let parts := splitOnChar ':' s.data
  match listIndex parts 0 with
  | .error e => .error e
  | .ok p0 =>
    match pyIntChars p0 with
    | .error e => .error e
    | .ok h =>
      match listIndex parts 1 with
      | .error e => .error e
      | .ok p1 =>
        match pyIntChars p1 with
        | .error e => .error e
        | .ok m => pyTimeCtor h m

/-- The except (ValueError, IndexError) handler around the native_value
parse: those two exception kinds fall back to the entity's default, any
other exception propagates. -/
def catchParse (dflt : PyTimeHM) : Except PyExc PyTimeHM → Except PyExc PyTimeHM
  | .ok t => .ok t
  | .error .valueError => .ok dflt
  | .error .indexError => .ok dflt
  | .error e => .error e

/-- Shared body of the four time entities' native_value: look the field up
with the entity's default string, then parse inside try/except.  A
non-string stored value raises AttributeError at .split, which no handler
catches. -/
def time_native_value (field : String) (defaultStr : String) (dflt : PyTimeHM)
    (data : String → Option PyValue) : Except PyExc PyTimeHM :=
  match (data field).getD (.pstr defaultStr) with
  | .pstr s => catchParse dflt (time_parse_try s)
  | .pint _ => .error .attributeError

/-- GrowattChargeStartTimeEntity.native_value. -/
def chargeStart_native_value (device_type : String) (segment_id : Nat)
    (data : String → Option PyValue) : Except PyExc PyTimeHM :=
  time_native_value (charge_get_field_name device_type segment_id .start_time)
    ("14:00") ⟨14, 0⟩ data

/-- GrowattChargeEndTimeEntity.native_value. -/
def chargeEnd_native_value (device_type : String) (segment_id : Nat)
    (data : String → Option PyValue) : Except PyExc PyTimeHM :=
  time_native_value (charge_get_field_name device_type segment_id .stop_time)
    ("16:00") ⟨16, 0⟩ data

/-- GrowattDischargeStartTimeEntity.native_value. -/
def dischargeStart_native_value (device_type : String) (segment_id : Nat)
    (data : String → Option PyValue) : Except PyExc PyTimeHM :=
  time_native_value (discharge_get_field_name device_type segment_id .start_time)
    ("00:00") ⟨0, 0⟩ data

/-- GrowattDischargeEndTimeEntity.native_value. -/
def dischargeEnd_native_value (device_type : String) (segment_id : Nat)
    (data : String → Option PyValue) : Except PyExc PyTimeHM :=
  time_native_value (discharge_get_field_name device_type segment_id .stop_time)
    ("00:00") ⟨0, 0⟩ data

/-- Shared body of the four time entities' async_set_value: format the value
as zero-padded HH:MM and store it under the entity's field; the returned
list is the vendor API calls issued (none — the write is local;
async_write_ha_state is a host-state publish, not a vendor call). -/
def time_set_value (field : String) (data : String → Option PyValue) (value : PyTime) :
    (String → Option PyValue) × List ApiCall :=
  let time_str := format02d value.hour ++ ":" ++ format02d value.minute
  (dictSet data field (.pstr time_str), [])

/-- GrowattChargeStartTimeEntity.async_set_value. -/
def chargeStart_set_value (device_type : String) (segment_id : Nat)
    (data : String → Option PyValue) (value : PyTime) :
    (String → Option PyValue) × List ApiCall :=
  time_set_value (charge_get_field_name device_type segment_id .start_time) data value

/-- GrowattChargeEndTimeEntity.async_set_value. -/
def chargeEnd_set_value (device_type : String) (segment_id : Nat)
    (data : String → Option PyValue) (value : PyTime) :
    (String → Option PyValue) × List ApiCall :=
  time_set_value (charge_get_field_name device_type segment_id .stop_time) data value

/-- GrowattDischargeStartTimeEntity.async_set_value. -/
def dischargeStart_set_value (device_type : String) (segment_id : Nat)
    (data : String → Option PyValue) (value : PyTime) :
    (String → Option PyValue) × List ApiCall :=
  time_set_value (discharge_get_field_name device_type segment_id .start_time) data value

/-- GrowattDischargeEndTimeEntity.async_set_value. -/
def dischargeEnd_set_value (device_type : String) (segment_id : Nat)
    (data : String → Option PyValue) (value : PyTime) :
    (String → Option PyValue) × List ApiCall :=
  time_set_value (discharge_get_field_name device_type segment_id .stop_time) data value

/-! ### number.py -/

/-- GrowattNumber.async_set_native_value: coerce the float to int and store
it under the entity description's api_key; no vendor call is made and no
range check is applied. -/
def number_async_set_native_value (api_key : String) (data : String → Option PyValue)
    (value : Rat) : (String → Option PyValue) × List ApiCall :=
  (dictSet data api_key (.pint (ratTrunc value)), [])

/-! ### button.py -/

/-- Errors surfaced by the button flows: HomeAssistantError (validation and
the wrapper in async_press), the vendor GrowattV1ApiError, and uncaught
Python exceptions (e.g. ValueError from a state that fails to parse). -/
inductive PressError where
  | homeAssistantError (msg : String)
  | growattV1ApiError (msg : String)
  | pythonExc (e : PyExc)
  deriving DecidableEq

/-- Observable effects of a button press: vendor write calls and the
coordinator refresh request. -/
inductive Event where
  | apiCall (c : ApiCall)
  | refresh
  deriving DecidableEq

/-- The host coordinator capability as button.py uses it: device identifier,
device-family tag, whether the api object is an OpenApiV1 instance, and the
field-value snapshot mapping. -/
structure Coordinator where
  device_id : String
  device_type : String
  api_is_openapi_v1 : Bool
  data : String → Option PyValue

/-- The sibling entity states resolved by the entity-registry scan in
_apply_charge_settings: none when the entity (or its state) is absent,
otherwise the state string. -/
structure ChargeEntities where
  charge_power : Option String
  charge_stop_soc : Option String
  charge_start : Option String
  charge_end : Option String
  charge_enabled : Option String

/-- The sibling entity states resolved by the entity-registry scan in
_apply_discharge_settings. -/
structure DischargeEntities where
  discharge_power : Option String
  discharge_stop_soc : Option String
  discharge_start : Option String
  discharge_end : Option String
  discharge_enabled : Option String

/-- Python str.join with a comma-space separator. -/
def joinComma : List String → String
  | [] => ""
  | [x] => x
  | x :: xs => x ++ ", " ++ joinComma xs

/-- The missing-entity list built in the TLX branch of
_apply_charge_settings, in source order. -/
def tlx_charge_missing (device_id : String) (ents : ChargeEntities) : List String :=
  (if ents.charge_power.isNone then ["number." ++ device_id ++ "_charge_power"] else []) ++
  (if ents.charge_stop_soc.isNone then ["number." ++ device_id ++ "_charge_stop_soc"] else [])

/-- The missing-entity list built in the MIX branch of
_apply_charge_settings, in source order. -/
def mix_charge_missing (device_id : String) (ents : ChargeEntities) : List String :=
  (if ents.charge_start.isNone then ["time." ++ device_id ++ "_charge_start_time"] else []) ++
  (if ents.charge_end.isNone then ["time." ++ device_id ++ "_charge_end_time"] else []) ++
  (if ents.charge_enabled.isNone then ["switch." ++ device_id ++ "_charge_period_1_enabled"] else []) ++
  (if ents.charge_power.isNone then ["number." ++ device_id ++ "_charge_power"] else []) ++
  (if ents.charge_stop_soc.isNone then ["number." ++ device_id ++ "_charge_stop_soc"] else [])

/-- The missing-entity list built in the TLX branch of
_apply_discharge_settings, in source order. -/
def tlx_discharge_missing (device_id : String) (ents : DischargeEntities) : List String :=
  (if ents.discharge_power.isNone then ["number." ++ device_id ++ "_discharge_power"] else []) ++
  (if ents.discharge_stop_soc.isNone then ["number." ++ device_id ++ "_discharge_stop_soc"] else [])

/-- The missing-entity list built in the MIX branch of
_apply_discharge_settings, in source order. -/
def mix_discharge_missing (device_id : String) (ents : DischargeEntities) : List String :=
  (if ents.discharge_start.isNone then ["time." ++ device_id ++ "_discharge_start_time"] else []) ++
  (if ents.discharge_end.isNone then ["time." ++ device_id ++ "_discharge_end_time"] else []) ++
  (if ents.discharge_enabled.isNone then ["switch." ++ device_id ++ "_discharge_period_1_enabled"] else []) ++
  (if ents.discharge_power.isNone then ["number." ++ device_id ++ "_discharge_power"] else []) ++
  (if ents.discharge_stop_soc.isNone then ["number." ++ device_id ++ "_discharge_stop_soc"] else [])

/-- The validation message raised when sibling entities are missing. -/
def couldNotFindMsg (setting_type : String) (missing : List String) : String :=
  "Could not find all " ++ setting_type ++ " setting entities. Missing: " ++ joinComma missing

/-- GrowattApplySettingsButton._apply_charge_settings.  The entity-registry
scan is abstracted as the resolved Option states; the vendor api is a map
from a call to none (success) or some message (GrowattV1ApiError).  Returns
the vendor calls issued in order, and the error (if any). -/
def apply_charge_settings (co : Coordinator) (ents : ChargeEntities)
    (api : ApiCall → Option String) : List ApiCall × Option PressError :=
  let device_type := if co.device_type = "tlx" then DeviceType.MIN_TLX else DeviceType.SPH_MIX
  if co.api_is_openapi_v1 then
    if co.device_type = "tlx" then
      match ents.charge_power, ents.charge_stop_soc with
      | some power_state, some soc_state =>
          (match int_of_float_str power_state with
           | .error e => ([], some (.pythonExc e))
           | .ok charge_power =>
             match int_of_float_str soc_state with
             | .error e => ([], some (.pythonExc e))
             | .ok charge_stop_soc =>
               let params_power : ChargeDischargeParams := ⟨charge_power, 0, 0, 0, false⟩
               let call1 := ApiCall.writeParameter co.device_id device_type
                 ("charge_power") params_power
               match api call1 with
               | some e => ([call1], some (.growattV1ApiError e))
               | none =>
                 let params_soc : ChargeDischargeParams := ⟨0, charge_stop_soc, 0, 0, false⟩
                 let call2 := ApiCall.writeParameter co.device_id device_type
                   ("charge_stop_soc") params_soc
                 match api call2 with
                 | some e => ([call1, call2], some (.growattV1ApiError e))
                 | none => ([call1, call2], none))
      | _, _ =>
          ([], some (.homeAssistantError
            (couldNotFindMsg ("charge") (tlx_charge_missing co.device_id ents))))
    else
      match ents.charge_start, ents.charge_end, ents.charge_enabled,
            ents.charge_power, ents.charge_stop_soc with
      | some start_state, some end_state, some enabled_state, some power_state, some soc_state =>
          (match time_fromisoformat start_state with
           | .error e => ([], some (.pythonExc e))
           | .ok start_time =>
             match time_fromisoformat end_state with
             | .error e => ([], some (.pythonExc e))
             | .ok end_time =>
               let enabled := enabled_state == "on"
               match int_of_float_str power_state with
               | .error e => ([], some (.pythonExc e))
               | .ok charge_power =>
                 match int_of_float_str soc_state with
                 | .error e => ([], some (.pythonExc e))
                 | .ok charge_stop_soc =>
                   match pyValueInt ((co.data ("acChargeEnable")).getD (.pint 0)) with
                   | .error e => ([], some (.pythonExc e))
                   | .ok n =>
                     let mains_enabled := n != 0
                     let params : MixAcChargeTimeParams :=
                       ⟨charge_power, charge_stop_soc, mains_enabled,
                        start_time.hour, start_time.minute,
                        end_time.hour, end_time.minute, enabled, 1⟩
                     let call := ApiCall.writeTimeSegment co.device_id device_type
                       ("mix_ac_charge_time_period") (.mixCharge params)
                     match api call with
                     | some e => ([call], some (.growattV1ApiError e))
                     | none => ([call], none))
      | _, _, _, _, _ =>
          ([], some (.homeAssistantError
            (couldNotFindMsg ("charge") (mix_charge_missing co.device_id ents))))
  else
    ([], none)

/-- GrowattApplySettingsButton._apply_discharge_settings, embedded the same
way as the charge flow. -/
def apply_discharge_settings (co : Coordinator) (ents : DischargeEntities)
    (api : ApiCall → Option String) : List ApiCall × Option PressError :=
  let device_type := if co.device_type = "tlx" then DeviceType.MIN_TLX else DeviceType.SPH_MIX
  if co.api_is_openapi_v1 then
    if co.device_type = "tlx" then
      match ents.discharge_power, ents.discharge_stop_soc with
      | some power_state, some soc_state =>
          (match int_of_float_str power_state with
           | .error e => ([], some (.pythonExc e))
           | .ok discharge_power =>
             match int_of_float_str soc_state with
             | .error e => ([], some (.pythonExc e))
             | .ok discharge_stop_soc =>
               let params_power : ChargeDischargeParams := ⟨0, 0, discharge_power, 0, false⟩
               let call1 := ApiCall.writeParameter co.device_id device_type
                 ("discharge_power") params_power
               match api call1 with
               | some e => ([call1], some (.growattV1ApiError e))
               | none =>
                 let params_soc : ChargeDischargeParams := ⟨0, 0, 0, discharge_stop_soc, false⟩
                 let call2 := ApiCall.writeParameter co.device_id device_type
                   ("discharge_stop_soc") params_soc
                 match api call2 with
                 | some e => ([call1, call2], some (.growattV1ApiError e))
                 | none => ([call1, call2], none))
      | _, _ =>
          ([], some (.homeAssistantError
            (couldNotFindMsg ("discharge") (tlx_discharge_missing co.device_id ents))))
    else
      match ents.discharge_start, ents.discharge_end, ents.discharge_enabled,
            ents.discharge_power, ents.discharge_stop_soc with
      | some start_state, some end_state, some enabled_state, some power_state, some soc_state =>
          (match time_fromisoformat start_state with
           | .error e => ([], some (.pythonExc e))
           | .ok start_time =>
             match time_fromisoformat end_state with
             | .error e => ([], some (.pythonExc e))
             | .ok end_time =>
               let enabled := enabled_state == "on"
               match int_of_float_str power_state with
               | .error e => ([], some (.pythonExc e))
               | .ok discharge_power =>
                 match int_of_float_str soc_state with
                 | .error e => ([], some (.pythonExc e))
                 | .ok discharge_stop_soc =>
                   let params : MixAcDischargeTimeParams :=
                     ⟨discharge_power, discharge_stop_soc,
                      start_time.hour, start_time.minute,
                      end_time.hour, end_time.minute, enabled, 1⟩
                   let call := ApiCall.writeTimeSegment co.device_id device_type
                     ("mix_ac_discharge_time_period") (.mixDischarge params)
                   match api call with
                   | some e => ([call], some (.growattV1ApiError e))
                   | none => ([call], none))
      | _, _, _, _, _ =>
          ([], some (.homeAssistantError
            (couldNotFindMsg ("discharge") (mix_discharge_missing co.device_id ents))))
  else
    ([], none)

/-- GrowattApplySettingsButton.async_press: dispatch on the setting type,
request a coordinator refresh after success; GrowattV1ApiError is caught
once and re-raised as HomeAssistantError with the formatted message; any
other error propagates unchanged.  Returns the events in order and the
error, if any. -/
def async_press (setting_type : String) (co : Coordinator)
    (cents : ChargeEntities) (dents : DischargeEntities)
    (api : ApiCall → Option String) : List Event × Option PressError :=
  match (if setting_type = "charge" then apply_charge_settings co cents api
         else apply_discharge_settings co dents api) with
  | (calls, none) => (calls.map Event.apiCall ++ [Event.refresh], none)
  | (calls, some (.growattV1ApiError e)) =>
      (calls.map Event.apiCall,
       some (.homeAssistantError
         ("Error applying " ++ setting_type ++ " settings: " ++ e)))
  | (calls, some e) => (calls.map Event.apiCall, some e)


/-! ### Helper lemmas about the Python primitives -/

lemma pyIntChars_error {cs : List Char} {e : PyExc} (h : pyIntChars cs = .error e) :
    e = PyExc.valueError := by
  unfold pyIntChars at h
  split at h <;> split at h <;> simp_all

lemma listIndex_error {l : List (List Char)} {i : Nat} {e : PyExc}
    (h : listIndex l i = .error e) : e = PyExc.indexError := by
  unfold listIndex at h
  split at h <;> simp_all

lemma pyTimeCtor_error {a b : Int} {e : PyExc} (h : pyTimeCtor a b = .error e) :
    e = PyExc.valueError := by
  unfold pyTimeCtor at h
  split at h <;> simp_all

lemma time_parse_try_error {s : String} {e : PyExc} (h : time_parse_try s = .error e) :
    e = PyExc.valueError ∨ e = PyExc.indexError := by
  simp only [time_parse_try] at h
  split at h
  case _ e1 heq =>
    cases h
    exact Or.inr (listIndex_error heq)
  case _ p0 heq0 =>
    split at h
    case _ e1 heq =>
      cases h
      exact Or.inl (pyIntChars_error heq)
    case _ hv heqh =>
      split at h
      case _ e1 heq =>
        cases h
        exact Or.inr (listIndex_error heq)
      case _ p1 heq1 =>
        split at h
        case _ e1 heq =>
          cases h
          exact Or.inl (pyIntChars_error heq)
        case _ mv heqm =>
          exact Or.inl (pyTimeCtor_error h)

lemma splitOnCharAux_no_sep (sep : Char) (xs acc : List Char) (h : sep ∉ xs) :
    splitOnCharAux sep xs acc = [acc.reverse ++ xs] := by
  induction xs generalizing acc with
  | nil => simp [splitOnCharAux]
  | cons c cs ih =>
    have hc : ¬(c = sep) := by
      rintro rfl
      exact h (List.mem_cons_self _ _)
    rw [splitOnCharAux, if_neg hc, ih _ (fun hm => h (List.mem_cons_of_mem _ hm))]
    simp

lemma splitOnCharAux_sep_append (sep : Char) (xs ys acc : List Char) (h : sep ∉ xs) :
    splitOnCharAux sep (xs ++ sep :: ys) acc =
      (acc.reverse ++ xs) :: splitOnCharAux sep ys [] := by
  induction xs generalizing acc with
  | nil => simp [splitOnCharAux]
  | cons c cs ih =>
    have hc : ¬(c = sep) := by
      rintro rfl
      exact h (List.mem_cons_self _ _)
    rw [List.cons_append, splitOnCharAux, if_neg hc,
      ih _ (fun hm => h (List.mem_cons_of_mem _ hm))]
    simp

lemma splitOnChar_two (sep : Char) (xs ys : List Char) (hx : sep ∉ xs) (hy : sep ∉ ys) :
    splitOnChar sep (xs ++ sep :: ys) = [xs, ys] := by
  unfold splitOnChar
  rw [splitOnCharAux_sep_append sep xs ys [] hx]
  rw [show splitOnCharAux sep ys [] = splitOnChar sep ys from rfl,
    show splitOnChar sep ys = splitOnCharAux sep ys [] from rfl,
    splitOnCharAux_no_sep sep ys [] hy]
  simp

lemma pyIntChars_format02d : ∀ n < 100, pyIntChars (format02d n).data = .ok (n : Int) := by
  decide

lemma colon_not_mem_format02d : ∀ n < 100, ':' ∉ (format02d n).data := by
  decide

lemma time_parse_try_format {h m : Nat} (h1 : h < 24) (h2 : m < 60) :
    time_parse_try (format02d h ++ ":" ++ format02d m) = .ok ⟨h, m⟩ := by
  have hh := pyIntChars_format02d h (by omega)
  have hm := pyIntChars_format02d m (by omega)
  have hsplit : splitOnChar ':' ((format02d h ++ ":" ++ format02d m)).data =
      [(format02d h).data, (format02d m).data] := by
    have hdata : ((format02d h ++ ":" ++ format02d m)).data =
        (format02d h).data ++ ':' :: (format02d m).data := by
      simp [String.data_append]
    rw [hdata]
    exact splitOnChar_two ':' _ _ (colon_not_mem_format02d h (by omega))
      (colon_not_mem_format02d m (by omega))
  simp only [time_parse_try]
  rw [hsplit]
  simp only [listIndex, List.get?]
  rw [hh, hm]
  dsimp only
  unfold pyTimeCtor
  rw [if_pos (by omega)]
  simp


/-! ### Helper lemmas about the time entities -/

lemma time_native_value_str {field dstr : String} {dflt : PyTimeHM}
    {data : String → Option PyValue} {s : String}
    (hs : data field = some (.pstr s)) :
    (∀ t, time_parse_try s = .ok t → time_native_value field dstr dflt data = .ok t) ∧
    (∀ e, time_parse_try s = .error e → time_native_value field dstr dflt data = .ok dflt) := by
  unfold time_native_value
  rw [hs]
  constructor
  · intro t ht
    simp only [Option.getD_some]
    rw [ht]
    rfl
  · intro e he
    simp only [Option.getD_some]
    rw [he]
    rcases time_parse_try_error he with h | h <;> subst h <;> rfl

lemma time_native_value_none {field dstr : String} {dflt : PyTimeHM}
    {data : String → Option PyValue}
    (hs : data field = none) (hd : time_parse_try dstr = .ok dflt) :
    time_native_value field dstr dflt data = .ok dflt := by
  unfold time_native_value
  rw [hs]
  simp only [Option.getD_none]
  rw [hd]
  rfl

lemma time_native_value_dictSet (field dstr : String) (dflt : PyTimeHM)
    (data : String → Option PyValue) (s : String) :
    time_native_value field dstr dflt (dictSet data field (.pstr s)) =
      catchParse dflt (time_parse_try s) := by
  unfold time_native_value dictSet
  simp

/-! ### Helper lemmas about the missing-entity lists -/

lemma mem_tlx_charge_missing (dev : String) (ents : ChargeEntities) :
    (("number." ++ dev ++ "_charge_power") ∈ tlx_charge_missing dev ents ↔
      ents.charge_power = none) ∧
    (("number." ++ dev ++ "_charge_stop_soc") ∈ tlx_charge_missing dev ents ↔
      ents.charge_stop_soc = none) := by
  have hne : ("number." ++ dev ++ "_charge_power") ≠ ("number." ++ dev ++ "_charge_stop_soc") := by
    intro h
    have hl := congrArg String.length h
    simp at hl
    exact absurd hl (by decide)
  have hne' := hne.symm
  unfold tlx_charge_missing
  cases hp : ents.charge_power <;> cases hs : ents.charge_stop_soc <;> simp_all

lemma mem_tlx_discharge_missing (dev : String) (ents : DischargeEntities) :
    (("number." ++ dev ++ "_discharge_power") ∈ tlx_discharge_missing dev ents ↔
      ents.discharge_power = none) ∧
    (("number." ++ dev ++ "_discharge_stop_soc") ∈ tlx_discharge_missing dev ents ↔
      ents.discharge_stop_soc = none) := by
  have hne : ("number." ++ dev ++ "_discharge_power") ≠
      ("number." ++ dev ++ "_discharge_stop_soc") := by
    intro h
    have hl := congrArg String.length h
    simp at hl
    exact absurd hl (by decide)
  have hne' := hne.symm
  unfold tlx_discharge_missing
  cases hp : ents.discharge_power <;> cases hs : ents.discharge_stop_soc <;> simp_all

lemma mem_mix_charge_missing (dev : String) (ents : ChargeEntities) :
    (("time." ++ dev ++ "_charge_start_time") ∈ mix_charge_missing dev ents ↔
      ents.charge_start = none) ∧
    (("time." ++ dev ++ "_charge_end_time") ∈ mix_charge_missing dev ents ↔
      ents.charge_end = none) ∧
    (("switch." ++ dev ++ "_charge_period_1_enabled") ∈ mix_charge_missing dev ents ↔
      ents.charge_enabled = none) ∧
    (("number." ++ dev ++ "_charge_power") ∈ mix_charge_missing dev ents ↔
      ents.charge_power = none) ∧
    (("number." ++ dev ++ "_charge_stop_soc") ∈ mix_charge_missing dev ents ↔
      ents.charge_stop_soc = none) := by
  have h12 : ("time." ++ dev ++ "_charge_start_time") ≠ ("time." ++ dev ++ "_charge_end_time") := by
    intro h
    have hd := congrArg String.data h
    simp only [String.data_append] at hd
    simp at hd
  have h13 : ("time." ++ dev ++ "_charge_start_time") ≠
      ("switch." ++ dev ++ "_charge_period_1_enabled") := by
    intro h
    have hd := congrArg String.data h
    simp only [String.data_append] at hd
    simp at hd
  have h14 : ("time." ++ dev ++ "_charge_start_time") ≠ ("number." ++ dev ++ "_charge_power") := by
    intro h
    have hd := congrArg String.data h
    simp only [String.data_append] at hd
    simp at hd
  have h15 : ("time." ++ dev ++ "_charge_start_time") ≠ ("number." ++ dev ++ "_charge_stop_soc") := by
    intro h
    have hd := congrArg String.data h
    simp only [String.data_append] at hd
    simp at hd
  have h23 : ("time." ++ dev ++ "_charge_end_time") ≠
      ("switch." ++ dev ++ "_charge_period_1_enabled") := by
    intro h
    have hd := congrArg String.data h
    simp only [String.data_append] at hd
    simp at hd
  have h24 : ("time." ++ dev ++ "_charge_end_time") ≠ ("number." ++ dev ++ "_charge_power") := by
    intro h
    have hd := congrArg String.data h
    simp only [String.data_append] at hd
    simp at hd
  have h25 : ("time." ++ dev ++ "_charge_end_time") ≠ ("number." ++ dev ++ "_charge_stop_soc") := by
    intro h
    have hd := congrArg String.data h
    simp only [String.data_append] at hd
    simp at hd
  have h34 : ("switch." ++ dev ++ "_charge_period_1_enabled") ≠
      ("number." ++ dev ++ "_charge_power") := by
    intro h
    have hd := congrArg String.data h
    simp only [String.data_append] at hd
    simp at hd
  have h35 : ("switch." ++ dev ++ "_charge_period_1_enabled") ≠
      ("number." ++ dev ++ "_charge_stop_soc") := by
    intro h
    have hd := congrArg String.data h
    simp only [String.data_append] at hd
    simp at hd
  have h45 : ("number." ++ dev ++ "_charge_power") ≠ ("number." ++ dev ++ "_charge_stop_soc") := by
    intro h
    have hd := congrArg String.data h
    simp only [String.data_append] at hd
    simp at hd
  have h21 := h12.symm
  have h31 := h13.symm
  have h41 := h14.symm
  have h51 := h15.symm
  have h32 := h23.symm
  have h42 := h24.symm
  have h52 := h25.symm
  have h43 := h34.symm
  have h53 := h35.symm
  have h54 := h45.symm
  unfold mix_charge_missing
  cases ha : ents.charge_start <;> cases hb : ents.charge_end <;>
    cases hc : ents.charge_enabled <;> cases hp : ents.charge_power <;>
    cases hs : ents.charge_stop_soc <;> simp_all

lemma mem_mix_discharge_missing (dev : String) (ents : DischargeEntities) :
    (("time." ++ dev ++ "_discharge_start_time") ∈ mix_discharge_missing dev ents ↔
      ents.discharge_start = none) ∧
    (("time." ++ dev ++ "_discharge_end_time") ∈ mix_discharge_missing dev ents ↔
      ents.discharge_end = none) ∧
    (("switch." ++ dev ++ "_discharge_period_1_enabled") ∈ mix_discharge_missing dev ents ↔
      ents.discharge_enabled = none) ∧
    (("number." ++ dev ++ "_discharge_power") ∈ mix_discharge_missing dev ents ↔
      ents.discharge_power = none) ∧
    (("number." ++ dev ++ "_discharge_stop_soc") ∈ mix_discharge_missing dev ents ↔
      ents.discharge_stop_soc = none) := by
  have h12 : ("time." ++ dev ++ "_discharge_start_time") ≠
      ("time." ++ dev ++ "_discharge_end_time") := by
    intro h
    have hd := congrArg String.data h
    simp only [String.data_append] at hd
    simp at hd
  have h13 : ("time." ++ dev ++ "_discharge_start_time") ≠
      ("switch." ++ dev ++ "_discharge_period_1_enabled") := by
    intro h
    have hd := congrArg String.data h
    simp only [String.data_append] at hd
    simp at hd
  have h14 : ("time." ++ dev ++ "_discharge_start_time") ≠
      ("number." ++ dev ++ "_discharge_power") := by
    intro h
    have hd := congrArg String.data h
    simp only [String.data_append] at hd
    simp at hd
  have h15 : ("time." ++ dev ++ "_discharge_start_time") ≠
      ("number." ++ dev ++ "_discharge_stop_soc") := by
    intro h
    have hd := congrArg String.data h
    simp only [String.data_append] at hd
    simp at hd
  have h23 : ("time." ++ dev ++ "_discharge_end_time") ≠
      ("switch." ++ dev ++ "_discharge_period_1_enabled") := by
    intro h
    have hd := congrArg String.data h
    simp only [String.data_append] at hd
    simp at hd
  have h24 : ("time." ++ dev ++ "_discharge_end_time") ≠
      ("number." ++ dev ++ "_discharge_power") := by
    intro h
    have hd := congrArg String.data h
    simp only [String.data_append] at hd
    simp at hd
  have h25 : ("time." ++ dev ++ "_discharge_end_time") ≠
      ("number." ++ dev ++ "_discharge_stop_soc") := by
    intro h
    have hd := congrArg String.data h
    simp only [String.data_append] at hd
    simp at hd
  have h34 : ("switch." ++ dev ++ "_discharge_period_1_enabled") ≠
      ("number." ++ dev ++ "_discharge_power") := by
    intro h
    have hd := congrArg String.data h
    simp only [String.data_append] at hd
    simp at hd
  have h35 : ("switch." ++ dev ++ "_discharge_period_1_enabled") ≠
      ("number." ++ dev ++ "_discharge_stop_soc") := by
    intro h
    have hd := congrArg String.data h
    simp only [String.data_append] at hd
    simp at hd
  have h45 : ("number." ++ dev ++ "_discharge_power") ≠
      ("number." ++ dev ++ "_discharge_stop_soc") := by
    intro h
    have hd := congrArg String.data h
    simp only [String.data_append] at hd
    simp at hd
  have h21 := h12.symm
  have h31 := h13.symm
  have h41 := h14.symm
  have h51 := h15.symm
  have h32 := h23.symm
  have h42 := h24.symm
  have h52 := h25.symm
  have h43 := h34.symm
  have h53 := h35.symm
  have h54 := h45.symm
  unfold mix_discharge_missing
  cases ha : ents.discharge_start <;> cases hb : ents.discharge_end <;>
    cases hc : ents.discharge_enabled <;> cases hp : ents.discharge_power <;>
    cases hs : ents.discharge_stop_soc <;> simp_all

/-! ### Helper lemmas about the apply flows -/

lemma apply_charge_settings_nodup (co : Coordinator) (ents : ChargeEntities)
    (api : ApiCall → Option String) : (apply_charge_settings co ents api).1.Nodup := by
  simp only [apply_charge_settings]
  repeat' split
  all_goals simp_all

lemma apply_discharge_settings_nodup (co : Coordinator) (ents : DischargeEntities)
    (api : ApiCall → Option String) : (apply_discharge_settings co ents api).1.Nodup := by
  simp only [apply_discharge_settings]
  repeat' split
  all_goals simp_all

lemma async_press_charge_tlx_missing (co : Coordinator) (cents : ChargeEntities)
    (dents : DischargeEntities) (api : ApiCall → Option String)
    (hv : co.api_is_openapi_v1 = true) (hd : co.device_type = "tlx")
    (hmiss : cents.charge_power = none ∨ cents.charge_stop_soc = none) :
    async_press ("charge") co cents dents api =
      ([], some (.homeAssistantError
        (couldNotFindMsg ("charge") (tlx_charge_missing co.device_id cents)))) := by
  have happ : apply_charge_settings co cents api =
      ([], some (.homeAssistantError
        (couldNotFindMsg ("charge") (tlx_charge_missing co.device_id cents)))) := by
    rcases hmiss with h | h
    · simp [apply_charge_settings, hv, hd, h]
    · cases hcp : cents.charge_power <;> simp [apply_charge_settings, hv, hd, h, hcp]
  simp [async_press, happ]

lemma async_press_charge_mix_missing (co : Coordinator) (cents : ChargeEntities)
    (dents : DischargeEntities) (api : ApiCall → Option String)
    (hv : co.api_is_openapi_v1 = true) (hd : co.device_type ≠ "tlx")
    (hmiss : cents.charge_start = none ∨ cents.charge_end = none ∨
      cents.charge_enabled = none ∨ cents.charge_power = none ∨
      cents.charge_stop_soc = none) :
    async_press ("charge") co cents dents api =
      ([], some (.homeAssistantError
        (couldNotFindMsg ("charge") (mix_charge_missing co.device_id cents)))) := by
  have happ : apply_charge_settings co cents api =
      ([], some (.homeAssistantError
        (couldNotFindMsg ("charge") (mix_charge_missing co.device_id cents)))) := by
    cases ha : cents.charge_start <;> cases hb : cents.charge_end <;>
      cases hc : cents.charge_enabled <;> cases hp : cents.charge_power <;>
      cases hs : cents.charge_stop_soc <;>
      simp_all [apply_charge_settings, hv, hd]
  simp [async_press, happ]

lemma async_press_discharge_tlx_missing (co : Coordinator) (cents : ChargeEntities)
    (dents : DischargeEntities) (api : ApiCall → Option String)
    (hv : co.api_is_openapi_v1 = true) (hd : co.device_type = "tlx")
    (hmiss : dents.discharge_power = none ∨ dents.discharge_stop_soc = none) :
    async_press ("discharge") co cents dents api =
      ([], some (.homeAssistantError
        (couldNotFindMsg ("discharge") (tlx_discharge_missing co.device_id dents)))) := by
  have happ : apply_discharge_settings co dents api =
      ([], some (.homeAssistantError
        (couldNotFindMsg ("discharge") (tlx_discharge_missing co.device_id dents)))) := by
    rcases hmiss with h | h
    · simp [apply_discharge_settings, hv, hd, h]
    · cases hcp : dents.discharge_power <;>
        simp [apply_discharge_settings, hv, hd, h, hcp]
  simp [async_press, happ]

lemma async_press_discharge_mix_missing (co : Coordinator) (cents : ChargeEntities)
    (dents : DischargeEntities) (api : ApiCall → Option String)
    (hv : co.api_is_openapi_v1 = true) (hd : co.device_type ≠ "tlx")
    (hmiss : dents.discharge_start = none ∨ dents.discharge_end = none ∨
      dents.discharge_enabled = none ∨ dents.discharge_power = none ∨
      dents.discharge_stop_soc = none) :
    async_press ("discharge") co cents dents api =
      ([], some (.homeAssistantError
        (couldNotFindMsg ("discharge") (mix_discharge_missing co.device_id dents)))) := by
  have happ : apply_discharge_settings co dents api =
      ([], some (.homeAssistantError
        (couldNotFindMsg ("discharge") (mix_discharge_missing co.device_id dents)))) := by
    cases ha : dents.discharge_start <;> cases hb : dents.discharge_end <;>
      cases hc : dents.discharge_enabled <;> cases hp : dents.discharge_power <;>
      cases hs : dents.discharge_stop_soc <;>
      simp_all [apply_discharge_settings, hv, hd]
  simp [async_press, happ]

/-! ### Claim theorems -/

/-- Claim C1: for every apply-settings button press (charge or discharge,
either device family), if any of the fixed required sibling-entity values
for that family is absent, the press raises a HomeAssistantError whose
message enumerates exactly the missing field identifiers (an identifier is
listed iff the corresponding entity is absent), and the event trace is
empty — the error is raised before any vendor write call, so no partial
write occurs. -/
theorem growatt_c1_missing_fields_validation
    (co : Coordinator) (cents : ChargeEntities) (dents : DischargeEntities)
    (api : ApiCall → Option String) (hv : co.api_is_openapi_v1 = true) :
    (co.device_type = "tlx" →
      (cents.charge_power = none ∨ cents.charge_stop_soc = none →
        async_press ("charge") co cents dents api =
          ([], some (.homeAssistantError
            (couldNotFindMsg ("charge") (tlx_charge_missing co.device_id cents))))) ∧
      (cents.charge_power = none ↔
        ("number." ++ co.device_id ++ "_charge_power") ∈
          tlx_charge_missing co.device_id cents) ∧
      (cents.charge_stop_soc = none ↔
        ("number." ++ co.device_id ++ "_charge_stop_soc") ∈
          tlx_charge_missing co.device_id cents)) ∧
    (co.device_type = "tlx" →
      (dents.discharge_power = none ∨ dents.discharge_stop_soc = none →
        async_press ("discharge") co cents dents api =
          ([], some (.homeAssistantError
            (couldNotFindMsg ("discharge") (tlx_discharge_missing co.device_id dents))))) ∧
      (dents.discharge_power = none ↔
        ("number." ++ co.device_id ++ "_discharge_power") ∈
          tlx_discharge_missing co.device_id dents) ∧
      (dents.discharge_stop_soc = none ↔
        ("number." ++ co.device_id ++ "_discharge_stop_soc") ∈
          tlx_discharge_missing co.device_id dents)) ∧
    (co.device_type ≠ "tlx" →
      (cents.charge_start = none ∨ cents.charge_end = none ∨
          cents.charge_enabled = none ∨ cents.charge_power = none ∨
          cents.charge_stop_soc = none →
        async_press ("charge") co cents dents api =
          ([], some (.homeAssistantError
            (couldNotFindMsg ("charge") (mix_charge_missing co.device_id cents))))) ∧
      (cents.charge_start = none ↔
        ("time." ++ co.device_id ++ "_charge_start_time") ∈
          mix_charge_missing co.device_id cents) ∧
      (cents.charge_end = none ↔
        ("time." ++ co.device_id ++ "_charge_end_time") ∈
          mix_charge_missing co.device_id cents) ∧
      (cents.charge_enabled = none ↔
        ("switch." ++ co.device_id ++ "_charge_period_1_enabled") ∈
          mix_charge_missing co.device_id cents) ∧
      (cents.charge_power = none ↔
        ("number." ++ co.device_id ++ "_charge_power") ∈
          mix_charge_missing co.device_id cents) ∧
      (cents.charge_stop_soc = none ↔
        ("number." ++ co.device_id ++ "_charge_stop_soc") ∈
          mix_charge_missing co.device_id cents)) ∧
    (co.device_type ≠ "tlx" →
      (dents.discharge_start = none ∨ dents.discharge_end = none ∨
          dents.discharge_enabled = none ∨ dents.discharge_power = none ∨
          dents.discharge_stop_soc = none →
        async_press ("discharge") co cents dents api =
          ([], some (.homeAssistantError
            (couldNotFindMsg ("discharge") (mix_discharge_missing co.device_id dents))))) ∧
      (dents.discharge_start = none ↔
        ("time." ++ co.device_id ++ "_discharge_start_time") ∈
          mix_discharge_missing co.device_id dents) ∧
      (dents.discharge_end = none ↔
        ("time." ++ co.device_id ++ "_discharge_end_time") ∈
          mix_discharge_missing co.device_id dents) ∧
      (dents.discharge_enabled = none ↔
        ("switch." ++ co.device_id ++ "_discharge_period_1_enabled") ∈
          mix_discharge_missing co.device_id dents) ∧
      (dents.discharge_power = none ↔
        ("number." ++ co.device_id ++ "_discharge_power") ∈
          mix_discharge_missing co.device_id dents) ∧
      (dents.discharge_stop_soc = none ↔
        ("number." ++ co.device_id ++ "_discharge_stop_soc") ∈
          mix_discharge_missing co.device_id dents)) := by
  refine ⟨fun hd => ⟨?_, ?_, ?_⟩, fun hd => ⟨?_, ?_, ?_⟩,
    fun hd => ⟨?_, ?_, ?_, ?_, ?_, ?_⟩, fun hd => ⟨?_, ?_, ?_, ?_, ?_, ?_⟩⟩
  · exact async_press_charge_tlx_missing co cents dents api hv hd
  · exact (mem_tlx_charge_missing co.device_id cents).1.symm
  · exact (mem_tlx_charge_missing co.device_id cents).2.symm
  · exact async_press_discharge_tlx_missing co cents dents api hv hd
  · exact (mem_tlx_discharge_missing co.device_id dents).1.symm
  · exact (mem_tlx_discharge_missing co.device_id dents).2.symm
  · exact async_press_charge_mix_missing co cents dents api hv hd
  · exact (mem_mix_charge_missing co.device_id cents).1.symm
  · exact (mem_mix_charge_missing co.device_id cents).2.1.symm
  · exact (mem_mix_charge_missing co.device_id cents).2.2.1.symm
  · exact (mem_mix_charge_missing co.device_id cents).2.2.2.1.symm
  · exact (mem_mix_charge_missing co.device_id cents).2.2.2.2.symm
  · exact async_press_discharge_mix_missing co cents dents api hv hd
  · exact (mem_mix_discharge_missing co.device_id dents).1.symm
  · exact (mem_mix_discharge_missing co.device_id dents).2.1.symm
  · exact (mem_mix_discharge_missing co.device_id dents).2.2.1.symm
  · exact (mem_mix_discharge_missing co.device_id dents).2.2.2.1.symm
  · exact (mem_mix_discharge_missing co.device_id dents).2.2.2.2.symm

/-- Witness for C1: a tlx press with the charge-power entity absent yields
the validation error listing exactly that identifier, with an empty event
trace. -/
theorem growatt_c1_witness :
    async_press ("charge") ⟨"dev1", "tlx", true, fun _ => none⟩
        ⟨none, some ("80"), none, none, none⟩ ⟨none, none, none, none, none⟩
        (fun _ => none) =
      ([], some (.homeAssistantError
        (couldNotFindMsg ("charge")
          (tlx_charge_missing ("dev1") ⟨none, some ("80"), none, none, none⟩)))) :=
  ((growatt_c1_missing_fields_validation
    ⟨"dev1", "tlx", true, fun _ => none⟩ ⟨none, some ("80"), none, none, none⟩
    ⟨none, none, none, none, none⟩ (fun _ => none) rfl).1 rfl).1 (Or.inl rfl)

/-- Claim C4: for every button press, the refresh request appears exactly
once, after all vendor writes, when the press succeeds; when validation
fails or a vendor write raises, no refresh request is made. -/
theorem growatt_c4_refresh_once (st : String) (co : Coordinator)
    (cents : ChargeEntities) (dents : DischargeEntities)
    (api : ApiCall → Option String) :
    ((async_press st co cents dents api).2 = none →
      ∃ ws : List ApiCall,
        (async_press st co cents dents api).1 = ws.map Event.apiCall ++ [Event.refresh] ∧
        Event.refresh ∉ ws.map Event.apiCall) ∧
    ((async_press st co cents dents api).2 ≠ none →
      Event.refresh ∉ (async_press st co cents dents api).1) := by
  simp only [async_press]
  split
  case _ calls heq =>
    refine ⟨fun _ => ⟨calls, rfl, ?_⟩, fun h => absurd rfl h⟩
    simp
  case _ calls e heq =>
    refine ⟨fun h => by simp at h, fun _ => ?_⟩
    simp
  case _ calls e heq hne =>
    refine ⟨fun h => by simp at h, fun _ => ?_⟩
    simp

/-- Witness for C4: a successful tlx charge press produces a trace of the
two writes followed by the single refresh. -/
theorem growatt_c4_witness :
    ∃ ws : List ApiCall,
      (async_press ("charge") ⟨"dev1", "tlx", true, fun _ => none⟩
        ⟨some ("50"), some ("80"), none, none, none⟩ ⟨none, none, none, none, none⟩
        (fun _ => none)).1 = ws.map Event.apiCall ++ [Event.refresh] ∧
      Event.refresh ∉ ws.map Event.apiCall :=
  (growatt_c4_refresh_once ("charge") ⟨"dev1", "tlx", true, fun _ => none⟩
    ⟨some ("50"), some ("80"), none, none, none⟩ ⟨none, none, none, none, none⟩
    (fun _ => none)).1 rfl

/-- Claim C2: a TLX charge press issues exactly two write_parameter calls —
charge power first, then charge stop SOC, each with all other parameter
fields zeroed — while a MIX charge press issues exactly one
write_time_segment call merging power, stop SOC, mains flag, start/end hour
and minute, enabled flag and segment 1. -/
theorem growatt_c2_charge_write_plan
    (co : Coordinator) (cents : ChargeEntities) (dents : DischargeEntities)
    (api : ApiCall → Option String) (hv : co.api_is_openapi_v1 = true) :
    (co.device_type = "tlx" → ∀ ps ss p q,
      cents.charge_power = some ps → cents.charge_stop_soc = some ss →
      int_of_float_str ps = .ok p → int_of_float_str ss = .ok q →
      api (ApiCall.writeParameter co.device_id .MIN_TLX ("charge_power")
        ⟨p, 0, 0, 0, false⟩) = none →
      api (ApiCall.writeParameter co.device_id .MIN_TLX ("charge_stop_soc")
        ⟨0, q, 0, 0, false⟩) = none →
      async_press ("charge") co cents dents api =
        ([.apiCall (ApiCall.writeParameter co.device_id .MIN_TLX ("charge_power")
            ⟨p, 0, 0, 0, false⟩),
          .apiCall (ApiCall.writeParameter co.device_id .MIN_TLX ("charge_stop_soc")
            ⟨0, q, 0, 0, false⟩),
          .refresh], none)) ∧
    (co.device_type ≠ "tlx" → ∀ sts ens es ps ss t1 t2 p q n,
      cents.charge_start = some sts → cents.charge_end = some ens →
      cents.charge_enabled = some es →
      cents.charge_power = some ps → cents.charge_stop_soc = some ss →
      time_fromisoformat sts = .ok t1 → time_fromisoformat ens = .ok t2 →
      int_of_float_str ps = .ok p → int_of_float_str ss = .ok q →
      pyValueInt ((co.data ("acChargeEnable")).getD (.pint 0)) = .ok n →
      api (ApiCall.writeTimeSegment co.device_id .SPH_MIX ("mix_ac_charge_time_period")
        (.mixCharge ⟨p, q, n != 0, t1.hour, t1.minute, t2.hour, t2.minute,
          es == "on", 1⟩)) = none →
      async_press ("charge") co cents dents api =
        ([.apiCall (ApiCall.writeTimeSegment co.device_id .SPH_MIX
            ("mix_ac_charge_time_period")
            (.mixCharge ⟨p, q, n != 0, t1.hour, t1.minute, t2.hour, t2.minute,
              es == "on", 1⟩)),
          .refresh], none)) := by
  constructor
  · intro hd ps ss p q hps hss hp hq hapi1 hapi2
    have happ : apply_charge_settings co cents api =
        ([ApiCall.writeParameter co.device_id .MIN_TLX ("charge_power") ⟨p, 0, 0, 0, false⟩,
          ApiCall.writeParameter co.device_id .MIN_TLX ("charge_stop_soc") ⟨0, q, 0, 0, false⟩],
         none) := by
      simp [apply_charge_settings, hv, hd, hps, hss, hp, hq, hapi1, hapi2]
    simp [async_press, happ]
  · intro hd sts ens es ps ss t1 t2 p q n hsts hens hes hps hss ht1 ht2 hp hq hn hapi
    have happ : apply_charge_settings co cents api =
        ([ApiCall.writeTimeSegment co.device_id .SPH_MIX ("mix_ac_charge_time_period")
            (.mixCharge ⟨p, q, n != 0, t1.hour, t1.minute, t2.hour, t2.minute,
              es == "on", 1⟩)], none) := by
      simp [apply_charge_settings, hv, hd, hsts, hens, hes, hps, hss, ht1, ht2, hp, hq, hn, hapi]
    simp [async_press, happ]

/-- Witness for C2: concrete successful tlx and mix charge presses produce
exactly the stated traces. -/
theorem growatt_c2_witness :
    async_press ("charge") ⟨"dev1", "tlx", true, fun _ => none⟩
        ⟨some ("50"), some ("80"), none, none, none⟩ ⟨none, none, none, none, none⟩
        (fun _ => none) =
      ([.apiCall (ApiCall.writeParameter ("dev1") .MIN_TLX ("charge_power")
          ⟨50, 0, 0, 0, false⟩),
        .apiCall (ApiCall.writeParameter ("dev1") .MIN_TLX ("charge_stop_soc")
          ⟨0, 80, 0, 0, false⟩),
        .refresh], none) ∧
    async_press ("charge")
        ⟨"dev1", "mix", true, fun k => if k = "acChargeEnable" then some (.pint 1) else none⟩
        ⟨some ("50"), some ("80"), some ("08:00"), some ("09:30"), some ("on")⟩
        ⟨none, none, none, none, none⟩ (fun _ => none) =
      ([.apiCall (ApiCall.writeTimeSegment ("dev1") .SPH_MIX ("mix_ac_charge_time_period")
          (.mixCharge ⟨50, 80, true, 8, 0, 9, 30, true, 1⟩)),
        .refresh], none) := by
  constructor
  · exact (growatt_c2_charge_write_plan ⟨"dev1", "tlx", true, fun _ => none⟩
      ⟨some ("50"), some ("80"), none, none, none⟩ ⟨none, none, none, none, none⟩
      (fun _ => none) rfl).1 rfl ("50") ("80") 50 80 rfl rfl (by decide) (by decide) rfl rfl
  · have h := (growatt_c2_charge_write_plan
      ⟨"dev1", "mix", true, fun k => if k = "acChargeEnable" then some (.pint 1) else none⟩
      ⟨some ("50"), some ("80"), some ("08:00"), some ("09:30"), some ("on")⟩
      ⟨none, none, none, none, none⟩ (fun _ => none) rfl).2 (by decide)
      ("08:00") ("09:30") ("on") ("50") ("80") ⟨8, 0⟩ ⟨9, 30⟩ 50 80 1
      rfl rfl rfl rfl rfl (by decide) (by decide) (by decide) (by decide) (by decide) rfl
    exact h

/-- Claim C3: for a TLX charge or discharge press, if the first
write_parameter succeeds and the second fails, the trace contains exactly
the two attempted writes — the first remains applied and no rollback or
compensating call is issued before the error surfaces. -/
theorem growatt_c3_no_rollback
    (co : Coordinator) (cents : ChargeEntities) (dents : DischargeEntities)
    (api : ApiCall → Option String)
    (hv : co.api_is_openapi_v1 = true) (hd : co.device_type = "tlx") :
    (∀ ps ss p q e,
      cents.charge_power = some ps → cents.charge_stop_soc = some ss →
      int_of_float_str ps = .ok p → int_of_float_str ss = .ok q →
      api (ApiCall.writeParameter co.device_id .MIN_TLX ("charge_power")
        ⟨p, 0, 0, 0, false⟩) = none →
      api (ApiCall.writeParameter co.device_id .MIN_TLX ("charge_stop_soc")
        ⟨0, q, 0, 0, false⟩) = some e →
      async_press ("charge") co cents dents api =
        ([.apiCall (ApiCall.writeParameter co.device_id .MIN_TLX ("charge_power")
            ⟨p, 0, 0, 0, false⟩),
          .apiCall (ApiCall.writeParameter co.device_id .MIN_TLX ("charge_stop_soc")
            ⟨0, q, 0, 0, false⟩)],
         some (.homeAssistantError ("Error applying charge settings: " ++ e)))) ∧
    (∀ ps ss p q e,
      dents.discharge_power = some ps → dents.discharge_stop_soc = some ss →
      int_of_float_str ps = .ok p → int_of_float_str ss = .ok q →
      api (ApiCall.writeParameter co.device_id .MIN_TLX ("discharge_power")
        ⟨0, 0, p, 0, false⟩) = none →
      api (ApiCall.writeParameter co.device_id .MIN_TLX ("discharge_stop_soc")
        ⟨0, 0, 0, q, false⟩) = some e →
      async_press ("discharge") co cents dents api =
        ([.apiCall (ApiCall.writeParameter co.device_id .MIN_TLX ("discharge_power")
            ⟨0, 0, p, 0, false⟩),
          .apiCall (ApiCall.writeParameter co.device_id .MIN_TLX ("discharge_stop_soc")
            ⟨0, 0, 0, q, false⟩)],
         some (.homeAssistantError ("Error applying discharge settings: " ++ e)))) := by
  constructor
  · intro ps ss p q e hps hss hp hq hapi1 hapi2
    have happ : apply_charge_settings co cents api =
        ([ApiCall.writeParameter co.device_id .MIN_TLX ("charge_power") ⟨p, 0, 0, 0, false⟩,
          ApiCall.writeParameter co.device_id .MIN_TLX ("charge_stop_soc") ⟨0, q, 0, 0, false⟩],
         some (.growattV1ApiError e)) := by
      simp [apply_charge_settings, hv, hd, hps, hss, hp, hq, hapi1, hapi2]
    simp [async_press, happ]
  · intro ps ss p q e hps hss hp hq hapi1 hapi2
    have happ : apply_discharge_settings co dents api =
        ([ApiCall.writeParameter co.device_id .MIN_TLX ("discharge_power") ⟨0, 0, p, 0, false⟩,
          ApiCall.writeParameter co.device_id .MIN_TLX ("discharge_stop_soc") ⟨0, 0, 0, q, false⟩],
         some (.growattV1ApiError e)) := by
      simp [apply_discharge_settings, hv, hd, hps, hss, hp, hq, hapi1, hapi2]
    simp [async_press, happ]

/-- Witness for C3: with a vendor api that fails exactly on the second tlx
charge write, the press trace is the two attempted writes and the error is
the wrapped vendor failure. -/
theorem growatt_c3_witness :
    async_press ("charge") ⟨"dev1", "tlx", true, fun _ => none⟩
        ⟨some ("50"), some ("80"), none, none, none⟩ ⟨none, none, none, none, none⟩
        (fun c =>
          if c = ApiCall.writeParameter ("dev1") .MIN_TLX ("charge_stop_soc")
            ⟨0, 80, 0, 0, false⟩ then some ("boom") else none) =
      ([.apiCall (ApiCall.writeParameter ("dev1") .MIN_TLX ("charge_power")
          ⟨50, 0, 0, 0, false⟩),
        .apiCall (ApiCall.writeParameter ("dev1") .MIN_TLX ("charge_stop_soc")
          ⟨0, 80, 0, 0, false⟩)],
       some (.homeAssistantError ("Error applying charge settings: " ++ "boom"))) :=
  (growatt_c3_no_rollback ⟨"dev1", "tlx", true, fun _ => none⟩
    ⟨some ("50"), some ("80"), none, none, none⟩ ⟨none, none, none, none, none⟩
    (fun c =>
      if c = ApiCall.writeParameter ("dev1") .MIN_TLX ("charge_stop_soc")
        ⟨0, 80, 0, 0, false⟩ then some ("boom") else none) rfl rfl).1
    ("50") ("80") 50 80 ("boom") rfl rfl (by decide) (by decide) (by decide) (by decide)

/-- Claim C5: whenever the dispatched apply flow ends with a
GrowattV1ApiError, async_press re-raises it exactly once as a
HomeAssistantError whose message names the setting type and the original
error; the trace is exactly the calls the apply flow made — nothing is
retried (the call list has no duplicates and the handler adds no call). -/
theorem growatt_c5_vendor_error_wrapped (st : String) (co : Coordinator)
    (cents : ChargeEntities) (dents : DischargeEntities)
    (api : ApiCall → Option String) (calls : List ApiCall) (e : String)
    (h : (if st = "charge" then apply_charge_settings co cents api
          else apply_discharge_settings co dents api) =
        (calls, some (.growattV1ApiError e))) :
    async_press st co cents dents api =
      (calls.map Event.apiCall,
       some (.homeAssistantError ("Error applying " ++ st ++ " settings: " ++ e))) ∧
    calls.Nodup := by
  constructor
  · simp only [async_press, h]
  · by_cases hst : st = "charge"
    · rw [if_pos hst] at h
      have h1 := congrArg Prod.fst h
      simp only at h1
      rw [← h1]
      exact apply_charge_settings_nodup co cents api
    · rw [if_neg hst] at h
      have h1 := congrArg Prod.fst h
      simp only at h1
      rw [← h1]
      exact apply_discharge_settings_nodup co dents api

/-- Witness for C5: the concrete failing tlx charge press of the C3 scenario
is wrapped once into the formatted HomeAssistantError and its two calls are
distinct. -/
theorem growatt_c5_witness :
    async_press ("charge") ⟨"dev1", "tlx", true, fun _ => none⟩
        ⟨some ("50"), some ("80"), none, none, none⟩ ⟨none, none, none, none, none⟩
        (fun c =>
          if c = ApiCall.writeParameter ("dev1") .MIN_TLX ("charge_stop_soc")
            ⟨0, 80, 0, 0, false⟩ then some ("err42") else none) =
      ([ApiCall.writeParameter ("dev1") .MIN_TLX ("charge_power") ⟨50, 0, 0, 0, false⟩,
        ApiCall.writeParameter ("dev1") .MIN_TLX ("charge_stop_soc")
          ⟨0, 80, 0, 0, false⟩].map Event.apiCall,
       some (.homeAssistantError
         ("Error applying " ++ "charge" ++ " settings: " ++ "err42"))) ∧
    [ApiCall.writeParameter ("dev1") .MIN_TLX ("charge_power") ⟨50, 0, 0, 0, false⟩,
     ApiCall.writeParameter ("dev1") .MIN_TLX ("charge_stop_soc")
       ⟨0, 80, 0, 0, false⟩].Nodup :=
  growatt_c5_vendor_error_wrapped ("charge") ⟨"dev1", "tlx", true, fun _ => none⟩
    ⟨some ("50"), some ("80"), none, none, none⟩ ⟨none, none, none, none, none⟩
    (fun c =>
      if c = ApiCall.writeParameter ("dev1") .MIN_TLX ("charge_stop_soc")
        ⟨0, 80, 0, 0, false⟩ then some ("err42") else none)
    _ ("err42") (by decide)

lemma set_then_native (field dstr : String) (dflt : PyTimeHM)
    (data : String → Option PyValue) (t : PyTime)
    (h1 : t.hour < 24) (h2 : t.minute < 60) :
    time_native_value field dstr dflt ((time_set_value field data t).1) =
      .ok ⟨t.hour, t.minute⟩ := by
  simp only [time_set_value]
  rw [time_native_value_dictSet, time_parse_try_format h1 h2]
  rfl

/-- Claim C6: a local edit of a number entity stores exactly the int-coerced
value under its api_key, a local edit of a time entity stores exactly the
zero-padded HH:MM string under its field; no other key of the mapping
changes and no vendor API call is issued; no range check is applied (the
number statement holds for every rational value). -/
theorem growatt_c6_local_edit :
    (∀ (api_key : String) (data : String → Option PyValue) (value : Rat),
      (number_async_set_native_value api_key data value).2 = [] ∧
      (number_async_set_native_value api_key data value).1 api_key =
        some (.pint (ratTrunc value)) ∧
      (∀ k, k ≠ api_key → (number_async_set_native_value api_key data value).1 k = data k)) ∧
    (∀ (field : String) (data : String → Option PyValue) (t : PyTime),
      (time_set_value field data t).2 = [] ∧
      (time_set_value field data t).1 field =
        some (.pstr (format02d t.hour ++ ":" ++ format02d t.minute)) ∧
      (∀ k, k ≠ field → (time_set_value field data t).1 k = data k)) ∧
    (∀ (dt : String) (sid : Nat) (data : String → Option PyValue) (t : PyTime),
      chargeStart_set_value dt sid data t =
        time_set_value (charge_get_field_name dt sid .start_time) data t ∧
      chargeEnd_set_value dt sid data t =
        time_set_value (charge_get_field_name dt sid .stop_time) data t ∧
      dischargeStart_set_value dt sid data t =
        time_set_value (discharge_get_field_name dt sid .start_time) data t ∧
      dischargeEnd_set_value dt sid data t =
        time_set_value (discharge_get_field_name dt sid .stop_time) data t) := by
  refine ⟨fun api_key data value => ⟨rfl, ?_, ?_⟩,
    fun field data t => ⟨rfl, ?_, ?_⟩, fun dt sid data t => ⟨rfl, rfl, rfl, rfl⟩⟩
  · simp [number_async_set_native_value, dictSet]
  · intro k hk
    simp [number_async_set_native_value, dictSet, hk]
  · simp [time_set_value, dictSet]
  · intro k hk
    simp [time_set_value, dictSet, hk]

/-- Witness for C6: an out-of-range number edit (250) is stored unchecked
under the api_key, another key is untouched, and a time edit stores the
padded string. -/
theorem growatt_c6_witness :
    (number_async_set_native_value ("chargePowerCommand") (fun _ => none) 250).1
        ("chargePowerCommand") = some (.pint (ratTrunc 250)) ∧
    (number_async_set_native_value ("chargePowerCommand") (fun _ => none) 250).1
        ("wchargeSOCLowLimit") = none ∧
    (time_set_value ("timeSegmentStart1") (fun _ => none) ⟨7, 5, 30, 999⟩).1
        ("timeSegmentStart1") =
      some (.pstr (format02d 7 ++ ":" ++ format02d 5)) := by
  refine ⟨(growatt_c6_local_edit.1 ("chargePowerCommand") (fun _ => none) 250).2.1,
    (growatt_c6_local_edit.1 ("chargePowerCommand") (fun _ => none) 250).2.2
      ("wchargeSOCLowLimit") (by decide),
    (growatt_c6_local_edit.2.1 ("timeSegmentStart1") (fun _ => none) ⟨7, 5, 30, 999⟩).2.1⟩

/-- Claim C7: field-name selection is device-family-conditional: for every
field type and segment id, a tlx device resolves through the numbered
segment templates (for both the charge and the discharge entities), and any
other device resolves through the separate charge or discharge template
set; in particular the tlx start-time field for segment 1 is the literal
key timeSegmentStart1. -/
theorem growatt_c7_field_name_selection :
    (∀ (sid : Nat) (ft : FieldType),
      charge_get_field_name ("tlx") sid ft =
        formatSegment (MIN_TLX_FIELD_TEMPLATES ft) sid ∧
      discharge_get_field_name ("tlx") sid ft =
        formatSegment (MIN_TLX_FIELD_TEMPLATES ft) sid) ∧
    (∀ (dt : String), dt ≠ "tlx" → ∀ (sid : Nat) (ft : FieldType),
      charge_get_field_name dt sid ft =
        formatSegment (SPH_MIX_CHARGE_FIELD_TEMPLATES ft) sid ∧
      discharge_get_field_name dt sid ft =
        formatSegment (SPH_MIX_DISCHARGE_FIELD_TEMPLATES ft) sid) ∧
    charge_get_field_name ("tlx") 1 FieldType.start_time = "timeSegmentStart1" := by
  refine ⟨fun sid ft => ⟨rfl, rfl⟩, fun dt hdt sid ft => ⟨?_, ?_⟩, by decide⟩
  · simp [charge_get_field_name, hdt]
  · simp [discharge_get_field_name, hdt]

/-- Witness for C7: a mix device resolves the enabled field for segment 1
through the charge and discharge template sets. -/
theorem growatt_c7_witness :
    charge_get_field_name ("mix") 1 FieldType.enabled =
      formatSegment (SPH_MIX_CHARGE_FIELD_TEMPLATES FieldType.enabled) 1 ∧
    discharge_get_field_name ("mix") 1 FieldType.enabled =
      formatSegment (SPH_MIX_DISCHARGE_FIELD_TEMPLATES FieldType.enabled) 1 :=
  growatt_c7_field_name_selection.2.1 ("mix") (by decide) 1 FieldType.enabled

/-- Claim C8: on a tlx device the charge and discharge time entities with
the same segment id resolve to identical field names, so a charge start
time written for segment n is exactly what the discharge start time entity
for segment n reads back, and vice versa. -/
theorem growatt_c8_tlx_field_collision :
    (∀ (sid : Nat) (ft : FieldType),
      charge_get_field_name ("tlx") sid ft = discharge_get_field_name ("tlx") sid ft) ∧
    (∀ (sid : Nat) (data : String → Option PyValue) (t : PyTime),
      t.hour < 24 → t.minute < 60 →
      dischargeStart_native_value ("tlx") sid ((chargeStart_set_value ("tlx") sid data t).1) =
        .ok ⟨t.hour, t.minute⟩ ∧
      chargeStart_native_value ("tlx") sid ((dischargeStart_set_value ("tlx") sid data t).1) =
        .ok ⟨t.hour, t.minute⟩) := by
  have hfield : ∀ (sid : Nat) (ft : FieldType),
      charge_get_field_name ("tlx") sid ft = discharge_get_field_name ("tlx") sid ft :=
    fun sid ft => rfl
  refine ⟨hfield, fun sid data t h1 h2 => ⟨?_, ?_⟩⟩
  · unfold dischargeStart_native_value chargeStart_set_value
    rw [← hfield sid .start_time]
    exact set_then_native _ _ _ data t h1 h2
  · unfold chargeStart_native_value dischargeStart_set_value
    rw [hfield sid .start_time]
    exact set_then_native _ _ _ data t h1 h2

/-- Witness for C8: writing 07:05 through the charge start entity on a tlx
device is read back by the discharge start entity of the same segment. -/
theorem growatt_c8_witness :
    dischargeStart_native_value ("tlx") 1
        ((chargeStart_set_value ("tlx") 1 (fun _ => none) ⟨7, 5, 0, 0⟩).1) =
      .ok ⟨7, 5⟩ ∧
    chargeStart_native_value ("tlx") 1
        ((dischargeStart_set_value ("tlx") 1 (fun _ => none) ⟨7, 5, 0, 0⟩).1) =
      .ok ⟨7, 5⟩ :=
  growatt_c8_tlx_field_collision.2 1 (fun _ => none) ⟨7, 5, 0, 0⟩ (by decide) (by decide)

/-- Claim C9: for every string stored under a time entity's field, and for
an absent key, reading native_value never raises: a stored string whose
parse succeeds yields that parsed time, and a stored string whose parse
raises ValueError or IndexError yields the entity's fixed default — 14:00
for charge start, 16:00 for charge end, 00:00 for discharge start and
discharge end (an absent key falls back to the default string, which parses
to the same default). -/
theorem growatt_c9_native_value_total (dt : String) (sid : Nat)
    (data : String → Option PyValue) :
    ((∀ s, data (charge_get_field_name dt sid .start_time) = some (.pstr s) →
        (∀ t, time_parse_try s = .ok t → chargeStart_native_value dt sid data = .ok t) ∧
        (∀ e, time_parse_try s = .error e →
          chargeStart_native_value dt sid data = .ok ⟨14, 0⟩)) ∧
      (data (charge_get_field_name dt sid .start_time) = none →
        chargeStart_native_value dt sid data = .ok ⟨14, 0⟩)) ∧
    ((∀ s, data (charge_get_field_name dt sid .stop_time) = some (.pstr s) →
        (∀ t, time_parse_try s = .ok t → chargeEnd_native_value dt sid data = .ok t) ∧
        (∀ e, time_parse_try s = .error e →
          chargeEnd_native_value dt sid data = .ok ⟨16, 0⟩)) ∧
      (data (charge_get_field_name dt sid .stop_time) = none →
        chargeEnd_native_value dt sid data = .ok ⟨16, 0⟩)) ∧
    ((∀ s, data (discharge_get_field_name dt sid .start_time) = some (.pstr s) →
        (∀ t, time_parse_try s = .ok t → dischargeStart_native_value dt sid data = .ok t) ∧
        (∀ e, time_parse_try s = .error e →
          dischargeStart_native_value dt sid data = .ok ⟨0, 0⟩)) ∧
      (data (discharge_get_field_name dt sid .start_time) = none →
        dischargeStart_native_value dt sid data = .ok ⟨0, 0⟩)) ∧
    ((∀ s, data (discharge_get_field_name dt sid .stop_time) = some (.pstr s) →
        (∀ t, time_parse_try s = .ok t → dischargeEnd_native_value dt sid data = .ok t) ∧
        (∀ e, time_parse_try s = .error e →
          dischargeEnd_native_value dt sid data = .ok ⟨0, 0⟩)) ∧
      (data (discharge_get_field_name dt sid .stop_time) = none →
        dischargeEnd_native_value dt sid data = .ok ⟨0, 0⟩)) := by
  refine ⟨⟨fun s hs => ?_, fun hn => ?_⟩, ⟨fun s hs => ?_, fun hn => ?_⟩,
    ⟨fun s hs => ?_, fun hn => ?_⟩, ⟨fun s hs => ?_, fun hn => ?_⟩⟩
  · exact time_native_value_str hs
  · exact time_native_value_none hn (by decide)
  · exact time_native_value_str hs
  · exact time_native_value_none hn (by decide)
  · exact time_native_value_str hs
  · exact time_native_value_none hn (by decide)
  · exact time_native_value_str hs
  · exact time_native_value_none hn (by decide)

/-- Witness for C9: an out-of-range stored string (25:99) falls back to the
charge-start default 14:00, and an absent key yields the discharge-end
default 00:00. -/
theorem growatt_c9_witness :
    chargeStart_native_value ("tlx") 1
        (fun k => if k = "timeSegmentStart1" then some (.pstr ("25:99")) else none) =
      .ok ⟨14, 0⟩ ∧
    dischargeEnd_native_value ("tlx") 1 (fun _ => none) = .ok ⟨0, 0⟩ := by
  constructor
  · exact ((growatt_c9_native_value_total ("tlx") 1
      (fun k => if k = "timeSegmentStart1" then some (.pstr ("25:99")) else none)).1.1
      ("25:99") (by decide)).2 .valueError (by decide)
  · exact (growatt_c9_native_value_total ("tlx") 1 (fun _ => none)).2.2.2.2 rfl

/-- Claim C10: setting a time value t on any of the four time entities and
reading native_value back (no refresh in between) returns the time with
hour t.hour and minute t.minute — the second and microsecond components of
t are discarded by the HH:MM formatting. -/
theorem growatt_c10_time_roundtrip (dt : String) (sid : Nat)
    (data : String → Option PyValue) (t : PyTime)
    (h1 : t.hour < 24) (h2 : t.minute < 60) :
    chargeStart_native_value dt sid ((chargeStart_set_value dt sid data t).1) =
      .ok ⟨t.hour, t.minute⟩ ∧
    chargeEnd_native_value dt sid ((chargeEnd_set_value dt sid data t).1) =
      .ok ⟨t.hour, t.minute⟩ ∧
    dischargeStart_native_value dt sid ((dischargeStart_set_value dt sid data t).1) =
      .ok ⟨t.hour, t.minute⟩ ∧
    dischargeEnd_native_value dt sid ((dischargeEnd_set_value dt sid data t).1) =
      .ok ⟨t.hour, t.minute⟩ :=
  ⟨set_then_native _ _ _ data t h1 h2, set_then_native _ _ _ data t h1 h2,
   set_then_native _ _ _ data t h1 h2, set_then_native _ _ _ data t h1 h2⟩

/-- Witness for C10: a value with nonzero seconds and microseconds round
trips to its hour and minute on all four entities of a mix device. -/
theorem growatt_c10_witness :
    chargeStart_native_value ("mix") 1
        ((chargeStart_set_value ("mix") 1 (fun _ => none) ⟨23, 59, 30, 123⟩).1) =
      .ok ⟨23, 59⟩ ∧
    chargeEnd_native_value ("mix") 1
        ((chargeEnd_set_value ("mix") 1 (fun _ => none) ⟨23, 59, 30, 123⟩).1) =
      .ok ⟨23, 59⟩ ∧
    dischargeStart_native_value ("mix") 1
        ((dischargeStart_set_value ("mix") 1 (fun _ => none) ⟨23, 59, 30, 123⟩).1) =
      .ok ⟨23, 59⟩ ∧
    dischargeEnd_native_value ("mix") 1
        ((dischargeEnd_set_value ("mix") 1 (fun _ => none) ⟨23, 59, 30, 123⟩).1) =
      .ok ⟨23, 59⟩ :=
  growatt_c10_time_roundtrip ("mix") 1 (fun _ => none) ⟨23, 59, 30, 123⟩
    (by decide) (by decide)
